import Mathlib

/-!
Verification of the YorXPA answer-aggregation and accessor model.

The definitions below are a shallow embedding of `yor-xpa.c` (the C plugin)
and of the interpreted helper `xpa_check` from `xpa.i`.  C strings are
modelled as `List Char` (no interior NUL bytes), `NULL` pointers as `none`,
and the Yorick stack protocol as explicit argument / result datatypes.
Fatal `y_error` calls are modelled with `Except`, carrying the C error
message.
-/

set_option autoImplicit false

namespace YorXPA

/-- The literal tag "XPA$ERROR" compared by `strncmp(str, "XPA$ERROR", 9)`
(macro `IS_ERROR`, yor-xpa.c line 32). -/
def errTag : List Char := ['X', 'P', 'A', '$', 'E', 'R', 'R', 'O', 'R']

/-- The literal tag "XPA$MESSAGE" compared by `strncmp(str, "XPA$MESSAGE", 11)`
(macro `IS_MESSAGE`, yor-xpa.c line 33). -/
def msgTag : List Char := ['X', 'P', 'A', '$', 'M', 'E', 'S', 'S', 'A', 'G', 'E']

/-- Macro `IS_ERROR(str)`: the status message begins with "XPA$ERROR". -/
def IS_ERROR (s : List Char) : Bool := errTag.isPrefixOf s

/-- Macro `IS_MESSAGE(str)`: the status message begins with "XPA$MESSAGE". -/
def IS_MESSAGE (s : List Char) : Bool := msgTag.isPrefixOf s

/-- Helper `push_string(str, len)` (yor-xpa.c lines 50-67): `len = -1` means
"use strlen"; a negative length or a NULL pointer with a nonzero length is a
fatal error; NULL is pushed as the NULL string, otherwise a copy of the first
`len` bytes is pushed. -/
def push_string (str : Option (List Char)) (len : Int) : Except String (Option (List Char)) :=
  if len = -1 then
    match str with
    | none => .ok none
    | some s => .ok (some s)
  else if len < 0 ∨ (str = none ∧ len ≠ 0) then .error ("invalid string length")
  else
    match str with
    | none => .ok none
    | some s => .ok (some (s.take len.toNat))

/-- The `xpadata_t` object (yor-xpa.c lines 116-125): four co-indexed arrays
(payload length, payload buffer, server string, status message), the reply
count, and the three lazily computed counts whose `-1` value means
"not yet counted". -/
structure xpadata where
  lens : List Nat
  bufs : List (Option (List Char))
  srvs : List (Option (List Char))
  msgs : List (Option (List Char))
  replies : Nat
  buffers : Int
  messages : Int
  errors : Int
deriving DecidableEq

/-- The scan performed by `get_buffers` (yor-xpa.c lines 132-137): count the
records with a non-NULL payload buffer. -/
def count_buffers (obj : xpadata) : Nat :=
  (List.range obj.replies).countP (fun i => (obj.bufs.getD i none).isSome)

/-- The scan performed by `get_errors` (yor-xpa.c lines 148-153): count the
records whose status message is non-NULL and starts with the error tag. -/
def count_errors (obj : xpadata) : Nat :=
  (List.range obj.replies).countP (fun i =>
    match obj.msgs.getD i none with
    | none => false
    | some m => IS_ERROR m)

/-- The scan performed by `get_messages` (yor-xpa.c lines 164-169): count the
records whose status message is non-NULL and starts with the message tag. -/
def count_messages (obj : xpadata) : Nat :=
  (List.range obj.replies).countP (fun i =>
    match obj.msgs.getD i none with
    | none => false
    | some m => IS_MESSAGE m)

/-- `get_buffers` (yor-xpa.c lines 128-141): on first access (`buffers < 0`)
scan and cache the count, afterwards return the cached value.  The returned
pair is (value, object after the call) — the C function mutates the object
in place. -/
def get_buffers (obj : xpadata) : Int × xpadata :=
  if obj.buffers < 0 then
    let n : Int := count_buffers obj
    (n, { obj with buffers := n })
  else (obj.buffers, obj)

/-- `get_errors` (yor-xpa.c lines 144-157), same caching discipline. -/
def get_errors (obj : xpadata) : Int × xpadata :=
  if obj.errors < 0 then
    let n : Int := count_errors obj
    (n, { obj with errors := n })
  else (obj.errors, obj)

/-- `get_messages` (yor-xpa.c lines 160-173), same caching discipline. -/
def get_messages (obj : xpadata) : Int × xpadata :=
  if obj.messages < 0 then
    let n : Int := count_messages obj
    (n, { obj with messages := n })
  else (obj.messages, obj)

/-- `get_buffers` instrumented with a scan counter (the counter is bumped
exactly when the scanning branch runs; this is the observation point the
spec's test plan calls "a scan counter in tests"). -/
def get_buffers_counting (obj : xpadata) (scans : Nat) : Int × xpadata × Nat :=
  if obj.buffers < 0 then
    let n : Int := count_buffers obj
    (n, { obj with buffers := n }, scans + 1)
  else (obj.buffers, obj, scans)

/-- `get_errors` instrumented with a scan counter. -/
def get_errors_counting (obj : xpadata) (scans : Nat) : Int × xpadata × Nat :=
  if obj.errors < 0 then
    let n : Int := count_errors obj
    (n, { obj with errors := n }, scans + 1)
  else (obj.errors, obj, scans)

/-- `get_messages` instrumented with a scan counter. -/
def get_messages_counting (obj : xpadata) (scans : Nat) : Int × xpadata × Nat :=
  if obj.messages < 0 then
    let n : Int := count_messages obj
    (n, { obj with messages := n }, scans + 1)
  else (obj.messages, obj, scans)

/-- The `ARG` macro's second component in `print_xpadata` (yor-xpa.c line 201):
the plural suffix is "s" exactly when the count is at least 2. -/
def plural_suffix (n : Int) : String := if n < 2 then "" else "s"

/-- `print_xpadata` (yor-xpa.c lines 192-207): the one-line summary string
built by `sprintf` with format
"XPAData (%d replie%s, %d buffer%s, %d message%s, %d error%s)" applied to
replies, buffers, messages, errors (in that argument order).  The three
getter calls may fill the caches, so the object after the call is returned
as well. -/
def print_xpadata (obj : xpadata) : String × xpadata :=
  let replies : Int := obj.replies
  let (buffers, obj) := get_buffers obj
  let (errors, obj) := get_errors obj
  let (messages, obj) := get_messages obj
  ("XPAData (" ++ toString replies ++ " replie" ++ plural_suffix replies ++ ", "
      ++ toString buffers ++ " buffer" ++ plural_suffix buffers ++ ", "
      ++ toString messages ++ " message" ++ plural_suffix messages ++ ", "
      ++ toString errors ++ " error" ++ plural_suffix errors ++ ")", obj)

/-- The Yorick numeric type of an array argument (typeids Y_CHAR..Y_COMPLEX). -/
inductive NumType where
  | char | short | int | long | float | double | complex
deriving DecidableEq

/-- Total byte size of a numeric array of `ntot` elements, as computed by the
switch in `eval_xpadata` (yor-xpa.c lines 305-314) on an LP64 platform
(`sizeof(long) = 8`); the complex case is `2*ntot*sizeof(double)`. -/
def array_size (t : NumType) (ntot : Nat) : Nat :=
  match t with
  | .char => ntot * 1
  | .short => ntot * 2
  | .int => ntot * 4
  | .long => ntot * 8
  | .float => ntot * 4
  | .double => ntot * 8
  | .complex => 2 * (ntot * 8)

/-- One Yorick stack argument to `eval_xpadata`, abstracted to the shape
distinctions the C code makes: nil, a scalar integer, a numeric array of
rank > 0 with `ntot` elements, or anything else. -/
inductive Arg where
  | void
  | intScalar (v : Int)
  | numArray (t : NumType) (ntot : Nat)
  | other
deriving DecidableEq

/-- The value `eval_xpadata` leaves on the Yorick stack: a long, an int, a
(possibly NULL) string, a byte array (`ypush_c`), nil, or the caller's own
array after the in-place `memcpy` (which the call then yields back). -/
inductive EvalResult where
  | long (v : Int)
  | int (v : Int)
  | str (s : Option (List Char))
  | bytes (b : List Char)
  | nil
  | copied (b : List Char)
deriving DecidableEq

/-- Index resolution in `eval_xpadata` (yor-xpa.c lines 232-239): a
non-positive index is shifted by the reply count, the result must lie in
`[1, replies]`, and is then turned into a 0-based C index. -/
def resolve_index (obj : xpadata) (v : Int) : Except String Nat :=
  let i : Int := if v ≤ 0 then v + obj.replies else v
  if i < 1 ∨ (obj.replies : Int) < i then .error ("out of range index")
  else .ok (i.toNat - 1)

/-- The second-argument dispatch of `eval_xpadata` (yor-xpa.c lines 245-321),
with `j` the already-resolved 0-based reply index. -/
def eval_key (obj : xpadata) (j : Nat) (a2 : Arg) : Except String EvalResult :=
  match a2 with
  | .void => .ok (.long (obj.lens.getD j 0))
  | .intScalar k =>
    if k = 0 then
      .ok (.int (match obj.msgs.getD j none with
                 | none => 0
                 | some m => if IS_MESSAGE m then 1 else if IS_ERROR m then 2 else 0))
    else if k = 1 then (push_string (obj.msgs.getD j none) (-1)).map .str
    else if k = 2 then (push_string (obj.srvs.getD j none) (-1)).map .str
    else if k = 3 then
      let len := obj.lens.getD j 0
      if 0 < len then .ok (.bytes (((obj.bufs.getD j none).getD []).take len))
      else .ok .nil
    else if k = 4 then
      (push_string (obj.bufs.getD j none) (obj.lens.getD j 0)).map .str
    else .error ("invalid key value")
  | .numArray t ntot =>
    let len := obj.lens.getD j 0
    if (len : Nat) ≠ array_size t ntot then .error ("invalid array size")
    else .ok (.copied (((obj.bufs.getD j none).getD []).take len))
  | .other => .error ("invalid key value")

/-- `eval_xpadata` (yor-xpa.c lines 209-322): the call protocol of the answer
object.  `args` lists the positional arguments in order (the C code walks the
Yorick stack from `iarg = argc-1` down, which is exactly this order). -/
def eval_xpadata (obj : xpadata) (args : List Arg) : Except String EvalResult :=
  if args.length < 1 ∨ 2 < args.length then .error ("expecting 1 or 2 arguments")
  else
    match args.getD 0 .other with
    | .void =>
      if args.length = 1 then .ok (.long obj.replies)
      else .error ("expecting an index")
    | .intScalar v =>
      match resolve_index obj v with
      | .error e => .error e
      | .ok j =>
        if args.length = 1 then (push_string (obj.msgs.getD j none) (-1)).map .str
        else eval_key obj j (args.getD 1 .other)
    | _ => .error ("expecting an index")

/-- `extract_xpadata` (yor-xpa.c lines 324-339): member lookup; the `name[0]`
comparisons in the C code are a short-circuit equivalent to the full
`strcmp`. -/
def extract_xpadata (obj : xpadata) (name : String) : Except String (Int × xpadata) :=
  if name = "replies" then .ok ((obj.replies : Int), obj)
  else if name = "buffers" then .ok (get_buffers obj)
  else if name = "errors" then .ok (get_errors obj)
  else if name = "messages" then .ok (get_messages obj)
  else .error ("bad XPAData member")

/-- The static arrays and reply counter (yor-xpa.c lines 108-114) that stage
one request's replies between the transport call and the construction of the
answer object.  `replies` is the C `int replies` (the transport may in
principle store a negative value there). -/
structure AccumState where
  lens : List Nat
  bufs : List (Option (List Char))
  srvs : List (Option (List Char))
  msgs : List (Option (List Char))
  replies : Int
deriving DecidableEq

/-- The `while (replies > 0)` loop of `clear_static_arrays` (yor-xpa.c lines
355-373), driven by a countdown from the initial reply count: each step nulls
slot `i = replies - 1`, frees the three non-NULL pointers of that slot, and
sets `replies = i`.  The freed pointers are collected so that "frees nothing"
is observable. -/
def clear_loop : Nat → AccumState → List (List Char) → AccumState × List (List Char)
  | 0, st, freed => (st, freed)
  | n + 1, st, freed =>
    let i := n
    let buf := st.bufs.getD i none
    let srv := st.srvs.getD i none
    let msg := st.msgs.getD i none
    let st := { st with
      bufs := st.bufs.set i none
      msgs := st.msgs.set i none
      srvs := st.srvs.set i none
      replies := (i : Int) }
    clear_loop n st (freed ++ (buf.toList ++ srv.toList ++ msg.toList))

/-- `clear_static_arrays` (yor-xpa.c lines 350-377): drain the static arrays,
freeing every held allocation, then clamp a negative reply count to zero.
Returns the state after the call together with the list of freed
allocations. -/
def clear_static_arrays (st : AccumState) : AccumState × List (List Char) :=
  let n : Nat := if st.replies ≤ 0 then 0 else st.replies.toNat
  let (st, freed) := clear_loop n st []
  ({ st with replies := if st.replies < 0 then 0 else st.replies }, freed)

/-- Effect on a pointer array of the slot-nulling in the copy loop of
`push_xpadata` (yor-xpa.c lines 412-422): the first `n` slots become NULL. -/
def nullify {α : Type} : Nat → List (Option α) → List (Option α)
  | 0, l => l
  | _ + 1, [] => []
  | n + 1, _ :: t => none :: nullify n t

/-- `push_xpadata` (yor-xpa.c lines 379-424): clamp a negative reply count to
zero, build a fresh answer object whose `replies` is the transferred count and
whose three lazy counters hold the `-1` "uncomputed" sentinel, copy the first
`n` entries of each static array into the object's arrays in index order while
nulling the static pointer slots, and finally set the static reply count to
zero.  Returns the new object and the accumulator state after the call. -/
def push_xpadata (st : AccumState) : xpadata × AccumState :=
  let n : Nat := if st.replies < 0 then 0 else st.replies.toNat
  let obj : xpadata := {
    lens := (List.range n).map (fun i => st.lens.getD i 0)
    bufs := (List.range n).map (fun i => st.bufs.getD i none)
    srvs := (List.range n).map (fun i => st.srvs.getD i none)
    msgs := (List.range n).map (fun i => st.msgs.getD i none)
    replies := n
    buffers := -1
    messages := -1
    errors := -1 }
  let st := { st with
    bufs := nullify n st.bufs
    msgs := nullify n st.msgs
    srvs := nullify n st.srvs
    replies := 0 }
  (obj, st)

/-- `NMAX` (yor-xpa.c line 109): the capacity of the static arrays, and the
maximum-recipients argument the entry points hand to the transport. -/
def NMAX : Nat := 100

/-- What the external transport produces for one get request: a reply count
and the four arrays it filled. -/
structure GetReply where
  n : Int
  lens : List Nat
  bufs : List (Option (List Char))
  srvs : List (Option (List Char))
  msgs : List (Option (List Char))

/-- `Y_xpaget` after argument parsing (yor-xpa.c lines 454-460), parameterised
by the external transport `XPAGet`: clear the static arrays, call the
transport with the fixed maximum-recipients bound `NMAX`, store its output in
the static arrays, and build the answer object.  The C code offers no way for
the caller to change the bound: no `nmax` keyword is read, `NMAX` is a
compile-time constant. -/
def Y_xpaget (XPAGet : Option (List Char) → Option (List Char) → Nat → GetReply)
    (apt cmd : Option (List Char)) (st : AccumState) : xpadata × AccumState :=
  let _cleared := (clear_static_arrays st).1
  let r := XPAGet apt cmd NMAX
  let st : AccumState :=
    { lens := r.lens, bufs := r.bufs, srvs := r.srvs, msgs := r.msgs, replies := r.n }
  push_xpadata st

/-- The test `ans(i,0) == 2` of `xpa_check` (xpa.i): the `i`-th reply is
classified as an error reply by the accessor protocol. -/
def is_error_reply (ans : xpadata) (i : Int) : Bool :=
  match eval_xpadata ans [.intScalar i, .intScalar 0] with
  | .ok (.int 2) => true
  | _ => false

/-- The expression `ans(i,1)` of `xpa_check` (xpa.i): the status message of
the `i`-th reply, as the accessor protocol returns it (the NULL string is
read as the empty string, a case `xpa_check` never reaches). -/
def reply_message (ans : xpadata) (i : Int) : List Char :=
  match eval_xpadata ans [.intScalar i, .intScalar 1] with
  | .ok (.str (some s)) => s
  | _ => []

/-- The separator "; " used by `xpa_check` to join error messages. -/
def checkSep : List Char := [';', ' ']

/-- The `for (i = 1; i <= replies; ++i)` loop of `xpa_check` (xpa.i): walk the
replies, and at each error reply append `strpart(ans(i,1), 11:)` (the message
with its first 10 characters dropped) to the accumulated message, joining
with "; "; break once the error budget is spent.  `ks` lists the 0-based
positions still to visit (the Yorick index is `k + 1`). -/
def xpa_check_loop (ans : xpadata) : List Nat → Int → Option (List Char) → Option (List Char)
  | [], _, msg => msg
  | k :: rest, errors, msg =>
    if is_error_reply ans ((k : Int) + 1) then
      let str := (reply_message ans ((k : Int) + 1)).drop 10
      let msg := match msg with
                 | none => some str
                 | some m => some (m ++ checkSep ++ str)
      if errors - 1 ≤ 0 then msg
      else xpa_check_loop ans rest (errors - 1) msg
    else xpa_check_loop ans rest errors msg

/-- `xpa_check(ans, onlyfirst=)` (xpa.i): no-op when `ans.errors` is zero;
otherwise collect the first (if `onlyfirst` and more than one error) or all
error messages, prefix-stripped and joined with "; ", and either raise the
result (`error, msg` — modelled as `.error`) when called as a subroutine or
return it when called as a function. -/
def xpa_check (ans : xpadata) (onlyfirst am_sub : Bool) : Except (List Char) (Option (List Char)) :=
  let errors := (get_errors ans).1
  if 0 < errors then
    let errors := if onlyfirst ∧ 1 < errors then 1 else errors
    let msg := xpa_check_loop ans (List.range ans.replies) errors none
    if am_sub then .error (msg.getD []) else .ok msg
  else .ok none

/-- The error messages of an answer, in reply order, each with its first 10
characters stripped — the list `xpa_check` joins. -/
def error_messages_stripped (ans : xpadata) : List (List Char) :=
  (List.range ans.replies).filterMap (fun k =>
    match ans.msgs.getD k none with
    | none => none
    | some m => if IS_ERROR m then some (m.drop 10) else none)

/-- Predicate used in the statements about `get_errors`: the record's status
message is present and carries the error tag. -/
def has_error_msg : Option (List Char) → Bool
  | none => false
  | some m => IS_ERROR m

/-- Predicate used in the statements about `get_messages`: the record's status
message is present and carries the normal-message tag. -/
def has_normal_msg : Option (List Char) → Bool
  | none => false
  | some m => IS_MESSAGE m

/-- The message accumulated by `xpa_check`'s loop: the pieces joined with
"; ", continuing a previously accumulated message when there is one. -/
def joinAcc (macc : Option (List Char)) (l : List (List Char)) : List Char :=
  match macc with
  | none => List.intercalate checkSep l
  | some m => List.intercalate checkSep (m :: l)

/-- The prefix-stripped error messages that `xpa_check`'s loop sees along a
list of (0-based) reply positions, through the accessor protocol. -/
def loop_errors (ans : xpadata) (ks : List Nat) : List (List Char) :=
  (ks.filter (fun (k : Nat) => is_error_reply ans ((k : Int) + 1))).map
    (fun (k : Nat) => (reply_message ans ((k : Int) + 1)).drop 10)

/-- Rendering claimed by the specification for the one-line summary, reading
"correct singular/plural suffixing of each noun according to its count" as
the standard English convention: the plural suffix "s" appears unless the
count is exactly one. -/
def claimed_summary (n b m e : Int) : String :=
  toString n ++ " replie" ++ (if n = 1 then "" else "s") ++ ", "
    ++ toString b ++ " buffer" ++ (if b = 1 then "" else "s") ++ ", "
    ++ toString m ++ " message" ++ (if m = 1 then "" else "s") ++ ", "
    ++ toString e ++ " error" ++ (if e = 1 then "" else "s")

/-- Rendering the code actually produces: same form and noun order, but the
plural suffix "s" appears exactly when the count is at least 2 (counts 0 and
1 both render unsuffixed). -/
def amended_summary (n b m e : Int) : String :=
  toString n ++ " replie" ++ (if n < 2 then "" else "s") ++ ", "
    ++ toString b ++ " buffer" ++ (if b < 2 then "" else "s") ++ ", "
    ++ toString m ++ " message" ++ (if m < 2 then "" else "s") ++ ", "
    ++ toString e ++ " error" ++ (if e < 2 then "" else "s")

/-- A transport stub that reports the maximum-recipients bound it was handed
as its reply count, to observe what bound `Y_xpaget` passes. -/
def probe_transport : Option (List Char) → Option (List Char) → Nat → GetReply :=
  fun _ _ nmax => ⟨(nmax : Int), [], [], [], []⟩

/-- A five-reply answer object used as concrete test input: replies 1 and 5
carry normal messages, reply 2 an error message, reply 3 no message, reply 4
an untagged message; replies 1 and 5 carry payloads and reply 4 carries a
present but zero-length payload. -/
def obj5 : xpadata :=
  { lens := [4, 0, 0, 0, 3]
    bufs := [some (("abcd").data), none, none, some [], some (("xyz").data)]
    srvs := [some (("srv1").data), none, none, none, none]
    msgs := [some (("XPA$MESSAGE ok").data), some (("XPA$ERROR bad").data), none,
             some (("hello").data), some (("XPA$MESSAGE fine").data)]
    replies := 5, buffers := -1, messages := -1, errors := -1 }

/-- A three-reply answer object whose replies are all error replies. -/
def ans3 : xpadata :=
  { lens := [0, 0, 0]
    bufs := [none, none, none]
    srvs := [none, none, none]
    msgs := [some (("XPA$ERROR one").data), some (("XPA$ERROR two").data),
             some (("XPA$ERROR three").data)]
    replies := 3, buffers := -1, messages := -1, errors := -1 }

/-- A freshly built answer object with no replies. -/
def obj_empty : xpadata :=
  { lens := [], bufs := [], srvs := [], msgs := [],
    replies := 0, buffers := -1, messages := -1, errors := -1 }

/-- A one-reply accumulator state holding three live allocations. -/
def acc1 : AccumState :=
  { lens := [2]
    bufs := [some (("hi").data)]
    srvs := [some (("srv").data)]
    msgs := [some (("XPA$MESSAGE done").data)]
    replies := 1 }

/-- The two tag conventions are mutually exclusive: character 4 of the tags
differs, so no message carries both. -/
lemma not_error_and_message (s : List Char) : ¬(IS_ERROR s = true ∧ IS_MESSAGE s = true) := by
  rintro ⟨he, hm⟩
  rw [IS_ERROR, List.isPrefixOf_iff_prefix, List.prefix_iff_eq_take] at he
  rw [IS_MESSAGE, List.isPrefixOf_iff_prefix, List.prefix_iff_eq_take] at hm
  have h9 : errTag.length = 9 := rfl
  have h11 : msgTag.length = 11 := rfl
  rw [h9] at he
  rw [h11] at hm
  have h : errTag = msgTag.take 9 := by
    rw [he, hm, List.take_take]
    norm_num
  exact absurd h (by decide)

/-- A message tagged as an error is not tagged as a normal message. -/
lemma error_not_message {s : List Char} (h : IS_ERROR s = true) : IS_MESSAGE s = false := by
  rcases hm : IS_MESSAGE s with _ | _
  · rfl
  · exact absurd ⟨h, hm⟩ (not_error_and_message s)

/-- A message tagged as normal is not tagged as an error. -/
lemma message_not_error {s : List Char} (h : IS_MESSAGE s = true) : IS_ERROR s = false := by
  rcases he : IS_ERROR s with _ | _
  · rfl
  · exact absurd ⟨he, h⟩ (not_error_and_message s)

/-- `push_string` with the `-1` strlen convention simply copies. -/
lemma push_string_neg_one (s : Option (List Char)) : push_string s (-1) = .ok s := by
  cases s <;> rfl

/-- Index resolution succeeds on an already-valid positive index. -/
lemma resolve_index_valid (obj : xpadata) (v : Int) (h1 : 1 ≤ v)
    (h2 : v ≤ (obj.replies : Int)) : resolve_index obj v = .ok (v.toNat - 1) := by
  simp only [resolve_index]
  rw [if_neg (by omega : ¬v ≤ 0), if_neg (by omega)]

/-- Unfolding of the one-argument call through index resolution. -/
lemma eval_one_arg (obj : xpadata) (v : Int) :
    eval_xpadata obj [.intScalar v] =
      match resolve_index obj v with
      | .error e => .error e
      | .ok j => (push_string (obj.msgs.getD j none) (-1)).map .str := rfl

/-- Unfolding of the two-argument call through index resolution. -/
lemma eval_two_arg (obj : xpadata) (v : Int) (a2 : Arg) :
    eval_xpadata obj [.intScalar v, a2] =
      match resolve_index obj v with
      | .error e => .error e
      | .ok j => eval_key obj j a2 := rfl

/-- Two-argument call when index resolution succeeds. -/
lemma eval_two_arg_ok (obj : xpadata) (v : Int) (j : Nat) (a2 : Arg)
    (h : resolve_index obj v = .ok j) :
    eval_xpadata obj [.intScalar v, a2] = eval_key obj j a2 := by
  rw [eval_two_arg, h]

/-- A scan over all positions of a list, read through `getD`, counts the same
as a direct `countP` over the list. -/
lemma countP_range_getD {α : Type} (l : List α) (d : α) (p : α → Bool) :
    (List.range l.length).countP (fun i => p (l.getD i d)) = l.countP p := by
  induction l with
  | nil => simp
  | cons a t ih =>
    rw [List.length_cons, List.range_succ_eq_map, List.countP_cons, List.countP_map]
    have hc : ((fun i => p ((a :: t).getD i d)) ∘ Nat.succ) = fun i => p (t.getD i d) := by
      funext i
      simp [Nat.succ_eq_add_one, List.getD_cons_succ]
    rw [hc, ih, List.countP_cons, List.getD_cons_zero]

/-- The buffer scan counts the records with a present payload. -/
lemma count_buffers_eq (obj : xpadata) (h : obj.bufs.length = obj.replies) :
    count_buffers obj = obj.bufs.countP Option.isSome := by
  rw [count_buffers, ← h, countP_range_getD]

/-- The error scan counts the records with an error-tagged status message. -/
lemma count_errors_eq (obj : xpadata) (h : obj.msgs.length = obj.replies) :
    count_errors obj = obj.msgs.countP has_error_msg := by
  have h0 : count_errors obj
      = (List.range obj.replies).countP (fun i => has_error_msg (obj.msgs.getD i none)) := rfl
  rw [h0, ← h, countP_range_getD]

/-- The message scan counts the records with a normal-tagged status message. -/
lemma count_messages_eq (obj : xpadata) (h : obj.msgs.length = obj.replies) :
    count_messages obj = obj.msgs.countP has_normal_msg := by
  have h0 : count_messages obj
      = (List.range obj.replies).countP (fun i => has_normal_msg (obj.msgs.getD i none)) := rfl
  rw [h0, ← h, countP_range_getD]

/-- Reduction of the key-0 branch of `eval_key`. -/
lemma eval_key0 (obj : xpadata) (j : Nat) :
    eval_key obj j (.intScalar 0) =
      .ok (.int (match obj.msgs.getD j none with
                 | none => 0
                 | some m => if IS_MESSAGE m then 1 else if IS_ERROR m then 2 else 0)) := rfl

/-- Reduction of the key-1 branch of `eval_key`. -/
lemma eval_key1 (obj : xpadata) (j : Nat) :
    eval_key obj j (.intScalar 1) =
      (push_string (obj.msgs.getD j none) (-1)).map .str := rfl

/-- Reduction of the key-3 branch of `eval_key`. -/
lemma eval_key3 (obj : xpadata) (j : Nat) :
    eval_key obj j (.intScalar 3) =
      if 0 < obj.lens.getD j 0 then
        .ok (.bytes (((obj.bufs.getD j none).getD []).take (obj.lens.getD j 0)))
      else .ok .nil := rfl

/-- Reduction of the array-copy branch of `eval_key`. -/
lemma eval_key_array (obj : xpadata) (j : Nat) (t : NumType) (ntot : Nat) :
    eval_key obj j (.numArray t ntot) =
      if obj.lens.getD j 0 ≠ array_size t ntot then .error ("invalid array size")
      else .ok (.copied (((obj.bufs.getD j none).getD []).take (obj.lens.getD j 0))) := rfl

/-- C1: with a single scalar integer argument `i`, a non-positive index is
reinterpreted as `i + count` (0 names the last reply, -1 the second-to-last);
a resolved index outside `[1, count]` fails with the out-of-range error, and
a valid one returns that reply's status message, a missing message giving the
null string rather than an error. -/
theorem relative_indexing_single_arg (obj : xpadata) (v r : Int)
    (hr : r = if v ≤ 0 then v + (obj.replies : Int) else v) :
    ((r < 1 ∨ (obj.replies : Int) < r) →
      eval_xpadata obj [.intScalar v] = .error ("out of range index")) ∧
    (1 ≤ r → r ≤ (obj.replies : Int) →
      eval_xpadata obj [.intScalar v] = .ok (.str (obj.msgs.getD (r.toNat - 1) none))) := by
  constructor
  · intro h
    rw [eval_one_arg]
    have hres : resolve_index obj v = .error ("out of range index") := by
      simp only [resolve_index]
      rw [← hr, if_pos h]
    rw [hres]
  · intro h1 h2
    rw [eval_one_arg]
    have hres : resolve_index obj v = .ok (r.toNat - 1) := by
      simp only [resolve_index]
      rw [← hr, if_neg (by omega)]
    rw [hres]
    simp [push_string_neg_one, Except.map]

/-- Witness for C1 at the five-reply object: index 0 yields reply 5's message,
index -1 reply 4's, and index 6 is out of range. -/
theorem relative_indexing_single_arg_witness :
    eval_xpadata obj5 [.intScalar 0] = .ok (.str (some (("XPA$MESSAGE fine").data))) ∧
    eval_xpadata obj5 [.intScalar (-1)] = .ok (.str (some (("hello").data))) ∧
    eval_xpadata obj5 [.intScalar 6] = .error ("out of range index") := by
  refine ⟨?_, ?_, ?_⟩
  · exact ((relative_indexing_single_arg obj5 0 5 (by decide)).2 (by decide) (by decide)).trans rfl
  · exact ((relative_indexing_single_arg obj5 (-1) 4 (by decide)).2 (by decide)
      (by decide)).trans rfl
  · exact (relative_indexing_single_arg obj5 6 6 (by decide)).1 (by decide)

/-- C2: at a valid resolved index, key 0 classifies the reply: 0 with no
status message, 1 when the message starts with "XPA$MESSAGE", 2 when it
starts with "XPA$ERROR", and 0 for any other message. -/
theorem classification_key0 (obj : xpadata) (v : Int) (h1 : 1 ≤ v)
    (h2 : v ≤ (obj.replies : Int)) :
    (obj.msgs.getD (v.toNat - 1) none = none →
      eval_xpadata obj [.intScalar v, .intScalar 0] = .ok (.int 0)) ∧
    (∀ m, obj.msgs.getD (v.toNat - 1) none = some m → IS_MESSAGE m = true →
      eval_xpadata obj [.intScalar v, .intScalar 0] = .ok (.int 1)) ∧
    (∀ m, obj.msgs.getD (v.toNat - 1) none = some m → IS_ERROR m = true →
      eval_xpadata obj [.intScalar v, .intScalar 0] = .ok (.int 2)) ∧
    (∀ m, obj.msgs.getD (v.toNat - 1) none = some m → IS_MESSAGE m = false →
      IS_ERROR m = false →
      eval_xpadata obj [.intScalar v, .intScalar 0] = .ok (.int 0)) := by
  have he : eval_xpadata obj [.intScalar v, .intScalar 0]
      = eval_key obj (v.toNat - 1) (.intScalar 0) := by
    rw [eval_two_arg, resolve_index_valid obj v h1 h2]
  refine ⟨?_, ?_, ?_, ?_⟩
  · intro h
    rw [he, eval_key0, h]
  · intro m h hm
    rw [he, eval_key0, h]
    simp [hm]
  · intro m h hm
    rw [he, eval_key0, h]
    simp [hm, error_not_message hm]
  · intro m h hm1 hm2
    rw [he, eval_key0, h]
    simp [hm1, hm2]

/-- Witness for C2 at the five-reply object: a normal message classifies as 1,
an error message as 2, a missing message as 0, an untagged message as 0. -/
theorem classification_key0_witness :
    eval_xpadata obj5 [.intScalar 1, .intScalar 0] = .ok (.int 1) ∧
    eval_xpadata obj5 [.intScalar 2, .intScalar 0] = .ok (.int 2) ∧
    eval_xpadata obj5 [.intScalar 3, .intScalar 0] = .ok (.int 0) ∧
    eval_xpadata obj5 [.intScalar 4, .intScalar 0] = .ok (.int 0) := by
  refine ⟨?_, ?_, ?_, ?_⟩
  · exact (classification_key0 obj5 1 (by decide) (by decide)).2.1
      (("XPA$MESSAGE ok").data) rfl (by decide)
  · exact (classification_key0 obj5 2 (by decide) (by decide)).2.2.1
      (("XPA$ERROR bad").data) rfl (by decide)
  · exact (classification_key0 obj5 3 (by decide) (by decide)).1 rfl
  · exact (classification_key0 obj5 4 (by decide) (by decide)).2.2.2
      (("hello").data) rfl (by decide) (by decide)

/-- C6: at a valid resolved index with a numeric array as second argument, a
total byte size different from the reply's payload length is a fatal error
with nothing copied, while an exact match copies the payload verbatim and
yields the caller's array. -/
theorem array_copy_exact_size (obj : xpadata) (v : Int) (t : NumType) (ntot : Nat)
    (h1 : 1 ≤ v) (h2 : v ≤ (obj.replies : Int)) :
    (obj.lens.getD (v.toNat - 1) 0 ≠ array_size t ntot →
      eval_xpadata obj [.intScalar v, .numArray t ntot] = .error ("invalid array size")) ∧
    (∀ b, obj.bufs.getD (v.toNat - 1) none = some b →
      b.length = obj.lens.getD (v.toNat - 1) 0 →
      obj.lens.getD (v.toNat - 1) 0 = array_size t ntot →
      eval_xpadata obj [.intScalar v, .numArray t ntot] = .ok (.copied b)) := by
  have he : eval_xpadata obj [.intScalar v, .numArray t ntot]
      = eval_key obj (v.toNat - 1) (.numArray t ntot) := by
    rw [eval_two_arg, resolve_index_valid obj v h1 h2]
  constructor
  · intro h
    rw [he, eval_key_array, if_pos h]
  · intro b hb hblen hsize
    rw [he, eval_key_array, if_neg (not_not_intro hsize), hb]
    simp only [Option.getD_some]
    rw [← hblen, List.take_length]

/-- Witness for C6 at the five-reply object: a 3-byte destination for a 4-byte
payload fails, a 4-byte destination receives the payload bytes. -/
theorem array_copy_exact_size_witness :
    eval_xpadata obj5 [.intScalar 1, .numArray .char 3] = .error ("invalid array size") ∧
    eval_xpadata obj5 [.intScalar 1, .numArray .char 4] = .ok (.copied (("abcd").data)) := by
  constructor
  · exact (array_copy_exact_size obj5 1 .char 3 (by decide) (by decide)).1 (by decide)
  · exact (array_copy_exact_size obj5 1 .char 4 (by decide) (by decide)).2
      (("abcd").data) rfl (by decide) (by decide)

/-- C10: at a valid resolved index, key 3 yields nil exactly when the stored
payload length is zero — independently of whether a payload buffer pointer is
present — while the buffer scan counts every record whose buffer pointer is
present, zero-length or not. -/
theorem key3_nil_iff_zero_length (obj : xpadata) (v : Int) (h1 : 1 ≤ v)
    (h2 : v ≤ (obj.replies : Int)) :
    (eval_xpadata obj [.intScalar v, .intScalar 3] = .ok .nil ↔
      obj.lens.getD (v.toNat - 1) 0 = 0) ∧
    (obj.lens.getD (v.toNat - 1) 0 = 0 →
      (obj.bufs.getD (v.toNat - 1) none).isSome = true → 0 < count_buffers obj) := by
  have he : eval_xpadata obj [.intScalar v, .intScalar 3]
      = eval_key obj (v.toNat - 1) (.intScalar 3) := by
    rw [eval_two_arg, resolve_index_valid obj v h1 h2]
  constructor
  · rw [he, eval_key3]
    constructor
    · intro hnil
      by_contra hlen
      rw [if_pos (Nat.pos_of_ne_zero hlen)] at hnil
      simp at hnil
    · intro hlen
      rw [if_neg (by omega)]
  · intro hlen hsome
    rw [count_buffers, List.countP_pos_iff]
    refine ⟨v.toNat - 1, ?_, hsome⟩
    rw [List.mem_range]
    omega

/-- Witness for C10 at the five-reply object: reply 4 has a present zero-length
payload and key 3 yields nil there, yet the record is counted as a buffer;
reply 1 has a nonzero length and key 3 does not yield nil. -/
theorem key3_nil_iff_zero_length_witness :
    eval_xpadata obj5 [.intScalar 4, .intScalar 3] = .ok .nil ∧
    0 < count_buffers obj5 ∧
    ¬ eval_xpadata obj5 [.intScalar 1, .intScalar 3] = .ok .nil := by
  refine ⟨?_, ?_, ?_⟩
  · exact ((key3_nil_iff_zero_length obj5 4 (by decide) (by decide)).1).mpr rfl
  · exact (key3_nil_iff_zero_length obj5 4 (by decide) (by decide)).2 rfl rfl
  · intro h
    exact absurd (((key3_nil_iff_zero_length obj5 1 (by decide) (by decide)).1).mp h)
      (by decide)

/-- First access to `get_buffers` on a fresh cache computes the scan. -/
lemma get_buffers_fresh_val (obj : xpadata) (hb : obj.buffers = -1) :
    get_buffers obj
      = ((count_buffers obj : Int), { obj with buffers := (count_buffers obj : Int) }) := by
  rw [get_buffers, if_pos (by rw [hb]; decide)]

/-- First access to `get_errors` on a fresh cache computes the scan. -/
lemma get_errors_fresh_val (obj : xpadata) (he : obj.errors = -1) :
    get_errors obj
      = ((count_errors obj : Int), { obj with errors := (count_errors obj : Int) }) := by
  rw [get_errors, if_pos (by rw [he]; decide)]

/-- First access to `get_messages` on a fresh cache computes the scan. -/
lemma get_messages_fresh_val (obj : xpadata) (hm : obj.messages = -1) :
    get_messages obj
      = ((count_messages obj : Int), { obj with messages := (count_messages obj : Int) }) := by
  rw [get_messages, if_pos (by rw [hm]; decide)]

/-- An access to `get_buffers_counting` on a filled cache returns the cached
value, leaves the object unchanged and performs no scan. -/
lemma get_buffers_counting_cached (obj : xpadata) (n : Nat) (h : obj.buffers = (n : Int))
    (s : Nat) : get_buffers_counting obj s = ((n : Int), obj, s) := by
  rw [get_buffers_counting, if_neg (by omega), h]

/-- An access to `get_errors_counting` on a filled cache returns the cached
value, leaves the object unchanged and performs no scan. -/
lemma get_errors_counting_cached (obj : xpadata) (n : Nat) (h : obj.errors = (n : Int))
    (s : Nat) : get_errors_counting obj s = ((n : Int), obj, s) := by
  rw [get_errors_counting, if_neg (by omega), h]

/-- An access to `get_messages_counting` on a filled cache returns the cached
value, leaves the object unchanged and performs no scan. -/
lemma get_messages_counting_cached (obj : xpadata) (n : Nat) (h : obj.messages = (n : Int))
    (s : Nat) : get_messages_counting obj s = ((n : Int), obj, s) := by
  rw [get_messages_counting, if_neg (by omega), h]

/-- C3: on a freshly built object whose arrays hold one entry per record, the
derived attribute `buffers` counts the records with a present payload,
`errors` those with an error-tagged message, and `messages` those with a
normal-tagged message. -/
theorem derived_counts (obj : xpadata) (hb : obj.buffers = -1) (he : obj.errors = -1)
    (hm : obj.messages = -1) (hlb : obj.bufs.length = obj.replies)
    (hlm : obj.msgs.length = obj.replies) :
    extract_xpadata obj ("buffers")
      = .ok ((obj.bufs.countP Option.isSome : Int),
             { obj with buffers := (obj.bufs.countP Option.isSome : Int) }) ∧
    extract_xpadata obj ("errors")
      = .ok ((obj.msgs.countP has_error_msg : Int),
             { obj with errors := (obj.msgs.countP has_error_msg : Int) }) ∧
    extract_xpadata obj ("messages")
      = .ok ((obj.msgs.countP has_normal_msg : Int),
             { obj with messages := (obj.msgs.countP has_normal_msg : Int) }) := by
  refine ⟨?_, ?_, ?_⟩
  · rw [extract_xpadata, if_neg (by decide), if_pos rfl, get_buffers_fresh_val obj hb,
      count_buffers_eq obj hlb]
  · rw [extract_xpadata, if_neg (by decide), if_neg (by decide), if_pos rfl,
      get_errors_fresh_val obj he, count_errors_eq obj hlm]
  · rw [extract_xpadata, if_neg (by decide), if_neg (by decide), if_neg (by decide),
      if_pos rfl, get_messages_fresh_val obj hm, count_messages_eq obj hlm]

/-- Witness for C3 at the five-reply object: 3 present payloads, 1 error
message, 2 normal messages. -/
theorem derived_counts_witness :
    extract_xpadata obj5 ("buffers") = .ok (3, { obj5 with buffers := 3 }) ∧
    extract_xpadata obj5 ("errors") = .ok (1, { obj5 with errors := 1 }) ∧
    extract_xpadata obj5 ("messages") = .ok (2, { obj5 with messages := 2 }) := by
  have h := derived_counts obj5 rfl rfl rfl rfl rfl
  exact ⟨h.1, h.2.1, h.2.2⟩

/-- C4: on a fresh object each count is produced by a single scan on first
access and cached in place of the -1 sentinel; a second access returns the
same value, leaves the object unchanged and performs no further scan. -/
theorem lazy_counts_memoized (obj : xpadata) (hb : obj.buffers = -1)
    (he : obj.errors = -1) (hm : obj.messages = -1) :
    (get_buffers_counting obj 0
        = ((count_buffers obj : Int), { obj with buffers := (count_buffers obj : Int) }, 1) ∧
      ∀ s : Nat, get_buffers_counting { obj with buffers := (count_buffers obj : Int) } s
        = ((count_buffers obj : Int), { obj with buffers := (count_buffers obj : Int) }, s)) ∧
    (get_errors_counting obj 0
        = ((count_errors obj : Int), { obj with errors := (count_errors obj : Int) }, 1) ∧
      ∀ s : Nat, get_errors_counting { obj with errors := (count_errors obj : Int) } s
        = ((count_errors obj : Int), { obj with errors := (count_errors obj : Int) }, s)) ∧
    (get_messages_counting obj 0
        = ((count_messages obj : Int), { obj with messages := (count_messages obj : Int) }, 1) ∧
      ∀ s : Nat, get_messages_counting { obj with messages := (count_messages obj : Int) } s
        = ((count_messages obj : Int),
           { obj with messages := (count_messages obj : Int) }, s)) := by
  refine ⟨⟨?_, fun s => ?_⟩, ⟨?_, fun s => ?_⟩, ⟨?_, fun s => ?_⟩⟩
  · rw [get_buffers_counting, if_pos (by rw [hb]; decide)]
  · exact get_buffers_counting_cached _ (count_buffers obj) rfl s
  · rw [get_errors_counting, if_pos (by rw [he]; decide)]
  · exact get_errors_counting_cached _ (count_errors obj) rfl s
  · rw [get_messages_counting, if_pos (by rw [hm]; decide)]
  · exact get_messages_counting_cached _ (count_messages obj) rfl s

/-- Witness for C4 at the five-reply object: the first access scans once and
caches 3; the second access returns 3 again with no further scan. -/
theorem lazy_counts_memoized_witness :
    get_buffers_counting obj5 0 = (3, { obj5 with buffers := 3 }, 1) ∧
    get_buffers_counting { obj5 with buffers := 3 } 1 = (3, { obj5 with buffers := 3 }, 1) := by
  have h := lazy_counts_memoized obj5 rfl rfl rfl
  exact ⟨h.1.1, h.1.2 1⟩

/-- Reading inside the filled range of a map over `List.range`. -/
lemma getD_map_range {α : Type} (n i : Nat) (f : Nat → α) (d : α) (h : i < n) :
    ((List.range n).map f).getD i d = f i := by
  rw [List.getD_eq_getElem?_getD, List.getElem?_map, List.getElem?_range h]
  rfl

/-- The first `n` slots are NULL after `nullify`. -/
lemma nullify_getD {α : Type} :
    ∀ (n : Nat) (l : List (Option α)) (i : Nat), i < n → (nullify n l).getD i none = none
  | 0, _, _, h => absurd h (by omega)
  | _ + 1, [], i, _ => by
    cases i <;> rfl
  | _ + 1, _ :: _, 0, _ => rfl
  | n + 1, _ :: t, i + 1, h => by
    simp only [nullify, List.getD_cons_succ]
    exact nullify_getD n t i (by omega)

/-- C5: building an answer object from an accumulator holding `n` replies
moves each record's length and three pointers, in order, into the new
object's arrays, initialises the lazy counters to the -1 sentinel, nulls the
accumulator's pointer slots, resets its held count to zero, and a subsequent
`clear_static_arrays` on the accumulator leaves it unchanged and frees
nothing — so no allocation is reachable from both sides. -/
theorem move_into_answer_object (st : AccumState) (n : Nat)
    (hn : n = if st.replies < 0 then 0 else st.replies.toNat) :
    ((push_xpadata st).1).replies = n ∧
    ((push_xpadata st).1).buffers = -1 ∧
    ((push_xpadata st).1).messages = -1 ∧
    ((push_xpadata st).1).errors = -1 ∧
    (∀ i, i < n →
      ((push_xpadata st).1).lens.getD i 0 = st.lens.getD i 0 ∧
      ((push_xpadata st).1).bufs.getD i none = st.bufs.getD i none ∧
      ((push_xpadata st).1).srvs.getD i none = st.srvs.getD i none ∧
      ((push_xpadata st).1).msgs.getD i none = st.msgs.getD i none) ∧
    (∀ i, i < n →
      ((push_xpadata st).2).bufs.getD i none = none ∧
      ((push_xpadata st).2).srvs.getD i none = none ∧
      ((push_xpadata st).2).msgs.getD i none = none) ∧
    ((push_xpadata st).2).replies = 0 ∧
    clear_static_arrays (push_xpadata st).2 = ((push_xpadata st).2, []) := by
  subst hn
  refine ⟨rfl, rfl, rfl, rfl, fun i hi => ?_, fun i hi => ?_, rfl, rfl⟩
  · exact ⟨getD_map_range _ i _ 0 hi, getD_map_range _ i _ none hi,
      getD_map_range _ i _ none hi, getD_map_range _ i _ none hi⟩
  · exact ⟨nullify_getD _ st.bufs i hi, nullify_getD _ st.srvs i hi,
      nullify_getD _ st.msgs i hi⟩

/-- Witness for C5 at a one-reply accumulator: the message moves into the
object, the accumulator slot is nulled, the count drops to zero, and a
subsequent reset frees nothing. -/
theorem move_into_answer_object_witness :
    ((push_xpadata acc1).1).replies = 1 ∧
    ((push_xpadata acc1).1).msgs.getD 0 none = some (("XPA$MESSAGE done").data) ∧
    ((push_xpadata acc1).2).msgs.getD 0 none = none ∧
    ((push_xpadata acc1).2).replies = 0 ∧
    clear_static_arrays (push_xpadata acc1).2 = ((push_xpadata acc1).2, []) := by
  obtain ⟨h1, _, _, _, hmove, hnull, hrep, hclear⟩ :=
    move_into_answer_object acc1 1 (by decide)
  exact ⟨h1, ((hmove 0 (by decide)).2.2.2).trans rfl, (hnull 0 (by decide)).2.2, hrep, hclear⟩

/-- C7 (code evidence): the maximum-recipients bound `Y_xpaget` hands the
transport is the compile-time constant `NMAX` = 100 — observed by a probe
transport that reports the bound it received as its reply count — and not a
caller-chosen value defaulting to 1. -/
theorem xpaget_recipients_bound :
    NMAX = 100 ∧
    ((Y_xpaget probe_transport none none
        { lens := [], bufs := [], srvs := [], msgs := [], replies := 0 }).1).replies
      = 100 := ⟨rfl, rfl⟩

/-- The error scan reads only the message array and the reply count. -/
lemma count_errors_expand (obj : xpadata) :
    count_errors obj
      = (List.range obj.replies).countP (fun i => has_error_msg (obj.msgs.getD i none)) := rfl

/-- The message scan reads only the message array and the reply count. -/
lemma count_messages_expand (obj : xpadata) :
    count_messages obj
      = (List.range obj.replies).countP (fun i => has_normal_msg (obj.msgs.getD i none)) := rfl

/-- C9 (amended): on a fresh object the one-line summary is exactly
"XPAData (<N> replie(s), <B> buffer(s), <M> message(s), <E> error(s))" with
replies, buffers, messages, errors in that order and the plural suffix
appended exactly when the count is at least 2. -/
theorem print_summary_form (obj : xpadata) (hb : obj.buffers = -1) (he : obj.errors = -1)
    (hm : obj.messages = -1) :
    (print_xpadata obj).1
      = "XPAData (" ++ amended_summary (obj.replies : Int) (count_buffers obj : Int)
          (count_messages obj : Int) (count_errors obj : Int) ++ ")" := by
  simp only [print_xpadata, get_buffers, get_errors, get_messages, hb, he, hm,
    count_errors_expand, count_messages_expand, amended_summary, plural_suffix,
    String.append_assoc, Int.reduceLT, reduceIte]

/-- Witness for the amended C9 at the five-reply object. -/
theorem print_summary_form_witness :
    (print_xpadata obj5).1 = "XPAData (5 replies, 3 buffers, 2 messages, 1 error)" :=
  (print_summary_form obj5 rfl rfl rfl).trans rfl

/-- C9 counterexample: at the freshly built empty answer the code renders
each zero count unsuffixed ("0 replie", "0 buffer", ...), while the claimed
"correct singular/plural suffixing" demands the plural at count zero
("0 replies", ...), and the claimed rendering occurs nowhere in the code's
output. -/
theorem print_summary_counterexample :
    (print_xpadata obj_empty).1 = "XPAData (0 replie, 0 buffer, 0 message, 0 error)" ∧
    claimed_summary 0 0 0 0 = "0 replies, 0 buffers, 0 messages, 0 errors" ∧
    ¬ ((claimed_summary 0 0 0 0).data <:+: ((print_xpadata obj_empty).1).data) :=
  ⟨rfl, rfl, by decide⟩

/-- Through the accessor protocol, `ans(k+1, 0) == 2` holds exactly for a
record with an error-tagged status message. -/
lemma is_error_reply_eq (ans : xpadata) (k : Nat) (hk : k < ans.replies) :
    is_error_reply ans ((k : Int) + 1) = has_error_msg (ans.msgs.getD k none) := by
  have hres : resolve_index ans ((k : Int) + 1) = .ok k := by
    have ht : ((k : Int) + 1).toNat - 1 = k := by omega
    rw [resolve_index_valid ans ((k : Int) + 1) (by omega) (by omega), ht]
  rw [is_error_reply, eval_two_arg_ok ans ((k : Int) + 1) k (.intScalar 0) hres, eval_key0]
  cases h : ans.msgs.getD k none with
  | none => rfl
  | some m =>
    rcases hm : IS_MESSAGE m with _ | _
    · rcases herr : IS_ERROR m with _ | _
      · simp [has_error_msg, hm, herr]
      · simp [has_error_msg, hm, herr]
    · simp [has_error_msg, hm, message_not_error hm]

/-- Through the accessor protocol, `ans(k+1, 1)` returns the stored status
message. -/
lemma reply_message_eq (ans : xpadata) (k : Nat) (hk : k < ans.replies) (m : List Char)
    (hm : ans.msgs.getD k none = some m) :
    reply_message ans ((k : Int) + 1) = m := by
  have hres : resolve_index ans ((k : Int) + 1) = .ok k := by
    have ht : ((k : Int) + 1).toNat - 1 = k := by omega
    rw [resolve_index_valid ans ((k : Int) + 1) (by omega) (by omega), ht]
  rw [reply_message, eval_two_arg_ok ans ((k : Int) + 1) k (.intScalar 1) hres, eval_key1,
    hm, push_string_neg_one]
  rfl

/-- Joining a one-element list is the element itself. -/
lemma intercalate_singleton (sep s : List Char) : List.intercalate sep [s] = s := by
  simp [List.intercalate]

/-- Unfolding one join step. -/
lemma intercalate_cons_cons (sep a b : List Char) (l : List (List Char)) :
    List.intercalate sep (a :: b :: l) = a ++ sep ++ List.intercalate sep (b :: l) := by
  simp [List.intercalate, List.intersperse]

/-- Extending the accumulated message by one piece commutes with prepending
the piece to the list still to be joined. -/
lemma joinAcc_shift (macc : Option (List Char)) (s : List Char) (l : List (List Char)) :
    joinAcc (match macc with
             | none => some s
             | some m => some (m ++ checkSep ++ s)) l = joinAcc macc (s :: l) := by
  cases macc with
  | none => rfl
  | some m =>
    cases l with
    | nil =>
      simp [joinAcc, intercalate_singleton, intercalate_cons_cons, List.append_assoc]
    | cons x xs =>
      simp [joinAcc, intercalate_cons_cons, List.append_assoc]

/-- Step of `xpa_check`'s loop at an error reply. -/
lemma xpa_check_loop_cons_true (ans : xpadata) (k : Nat) (rest : List Nat) (e : Int)
    (macc : Option (List Char)) (h : is_error_reply ans ((k : Int) + 1) = true) :
    xpa_check_loop ans (k :: rest) e macc =
      (if e - 1 ≤ 0 then
        (match macc with
         | none => some ((reply_message ans ((k : Int) + 1)).drop 10)
         | some m => some (m ++ checkSep ++ (reply_message ans ((k : Int) + 1)).drop 10))
       else xpa_check_loop ans rest (e - 1)
        (match macc with
         | none => some ((reply_message ans ((k : Int) + 1)).drop 10)
         | some m => some (m ++ checkSep ++ (reply_message ans ((k : Int) + 1)).drop 10))) := by
  simp [xpa_check_loop, h]

/-- Step of `xpa_check`'s loop at a non-error reply. -/
lemma xpa_check_loop_cons_false (ans : xpadata) (k : Nat) (rest : List Nat) (e : Int)
    (macc : Option (List Char)) (h : is_error_reply ans ((k : Int) + 1) = false) :
    xpa_check_loop ans (k :: rest) e macc = xpa_check_loop ans rest e macc := by
  simp [xpa_check_loop, h]

/-- The error list grows at an error reply. -/
lemma loop_errors_cons_true (ans : xpadata) (k : Nat) (rest : List Nat)
    (h : is_error_reply ans ((k : Int) + 1) = true) :
    loop_errors ans (k :: rest)
      = (reply_message ans ((k : Int) + 1)).drop 10 :: loop_errors ans rest := by
  simp [loop_errors, List.filter_cons, h]

/-- The error list is unchanged at a non-error reply. -/
lemma loop_errors_cons_false (ans : xpadata) (k : Nat) (rest : List Nat)
    (h : is_error_reply ans ((k : Int) + 1) = false) :
    loop_errors ans (k :: rest) = loop_errors ans rest := by
  simp [loop_errors, List.filter_cons, h]

/-- Main loop invariant of `xpa_check`: with an error budget of `e` between 1
and the number of error replies still ahead, the loop returns the accumulated
message extended by the first `e` prefix-stripped error messages. -/
lemma xpa_check_loop_spec (ans : xpadata) :
    ∀ (ks : List Nat) (e : Int) (macc : Option (List Char)),
      1 ≤ e → e ≤ ((loop_errors ans ks).length : Int) →
      xpa_check_loop ans ks e macc
        = some (joinAcc macc ((loop_errors ans ks).take e.toNat)) := by
  intro ks
  induction ks with
  | nil =>
    intro e macc h1 h2
    simp [loop_errors] at h2
    omega
  | cons k rest ih =>
    intro e macc h1 h2
    rcases hcl : is_error_reply ans ((k : Int) + 1) with _ | _
    · rw [xpa_check_loop_cons_false ans k rest e macc hcl]
      rw [loop_errors_cons_false ans k rest hcl] at h2 ⊢
      exact ih e macc h1 h2
    · rw [xpa_check_loop_cons_true ans k rest e macc hcl]
      rw [loop_errors_cons_true ans k rest hcl] at h2 ⊢
      by_cases hone : e - 1 ≤ 0
      · rw [if_pos hone]
        have he1 : e = 1 := by omega
        subst he1
        rw [show (1 : Int).toNat = 1 from rfl, List.take_succ_cons, List.take_zero]
        rw [← joinAcc_shift macc _ []]
        cases macc <;> simp [joinAcc, intercalate_singleton]
      · rw [if_neg hone]
        have h2' : e - 1 ≤ ((loop_errors ans rest).length : Int) := by
          rw [List.length_cons] at h2
          push_cast at h2 ⊢
          omega
        rw [ih (e - 1) _ (by omega) h2', joinAcc_shift]
        have htk : e.toNat = (e - 1).toNat + 1 := by omega
        rw [htk, List.take_succ_cons]

/-- Mapping after a filter is a `filterMap`. -/
lemma map_filter_eq_filterMap {α β : Type} (l : List α) (p : α → Bool) (g : α → β) :
    (l.filter p).map g = l.filterMap (fun a => if p a then some (g a) else none) := by
  induction l with
  | nil => rfl
  | cons a t ih =>
    by_cases h : p a <;> simp [List.filter_cons, List.filterMap_cons, h, ih]

/-- Over the full index range, the loop's error list is exactly the object's
prefix-stripped error messages. -/
lemma loop_errors_range (ans : xpadata) :
    loop_errors ans (List.range ans.replies) = error_messages_stripped ans := by
  rw [loop_errors, map_filter_eq_filterMap, error_messages_stripped]
  apply List.filterMap_congr
  intro k hk
  rw [List.mem_range] at hk
  rw [is_error_reply_eq ans k hk]
  cases hm : ans.msgs.getD k none with
  | none => rfl
  | some m =>
    rcases herr : IS_ERROR m with _ | _
    · simp [has_error_msg, herr]
    · simp [has_error_msg, herr, reply_message_eq ans k hk m hm]

/-- The loop sees as many error replies as the error scan counts. -/
lemma loop_errors_range_length (ans : xpadata) :
    (loop_errors ans (List.range ans.replies)).length = count_errors ans := by
  rw [loop_errors, List.length_map, ← List.countP_eq_length_filter, count_errors_expand]
  rw [List.countP_eq_length_filter, List.countP_eq_length_filter]
  congr 1
  apply List.filter_congr
  intro k hk
  rw [List.mem_range] at hk
  exact is_error_reply_eq ans k hk

/-- There are as many stripped error messages as the error scan counts. -/
lemma error_messages_stripped_length (ans : xpadata) :
    (error_messages_stripped ans).length = count_errors ans := by
  rw [← loop_errors_range, loop_errors_range_length]

/-- C8: on a fresh object, `xpa_check` does nothing when the error count is
zero; otherwise it produces the first error message (flag `onlyfirst`) or all
of them joined with "; ", each with its first 10 characters stripped, raised
as a failure when called as a subroutine and returned as a value when called
as a function. -/
theorem check_for_errors (ans : xpadata) (he : ans.errors = -1) (onlyfirst am_sub : Bool) :
    (count_errors ans = 0 → xpa_check ans onlyfirst am_sub = .ok none) ∧
    (0 < count_errors ans →
      xpa_check ans onlyfirst am_sub =
        (let out := List.intercalate checkSep
            (if onlyfirst then (error_messages_stripped ans).take 1
             else error_messages_stripped ans)
         if am_sub then .error out else .ok (some out))) := by
  have hval : (get_errors ans).1 = (count_errors ans : Int) := by
    rw [get_errors_fresh_val ans he]
  have hloop : ∀ e : Int, 1 ≤ e → e ≤ (count_errors ans : Int) →
      xpa_check_loop ans (List.range ans.replies) e none
        = some (List.intercalate checkSep ((error_messages_stripped ans).take e.toNat)) := by
    intro e he1 he2
    have hlen : ((loop_errors ans (List.range ans.replies)).length : Int)
        = (count_errors ans : Int) := by
      rw [loop_errors_range_length]
    rw [xpa_check_loop_spec ans (List.range ans.replies) e none he1 (by rw [hlen]; exact he2)]
    rw [loop_errors_range]
    rfl
  constructor
  · intro h0
    rw [xpa_check, hval, h0]
    norm_num
  · intro hpos
    simp only [xpa_check, hval]
    rw [if_pos (show (0 : Int) < (count_errors ans : Int) from by exact_mod_cast hpos)]
    by_cases hof : onlyfirst = true
    · subst hof
      by_cases hgt : 1 < (count_errors ans : Int)
      · have hbudget : (if (true = true ∧ 1 < (count_errors ans : Int)) then (1 : Int)
            else (count_errors ans : Int)) = 1 := if_pos ⟨rfl, hgt⟩
        rw [hbudget, hloop 1 (by omega) (by omega)]
        cases am_sub <;> rfl
      · have hbudget : (if (true = true ∧ 1 < (count_errors ans : Int)) then (1 : Int)
            else (count_errors ans : Int)) = (count_errors ans : Int) :=
          if_neg (fun hc => hgt hc.2)
        rw [hbudget, hloop (count_errors ans : Int) (by omega) (by omega)]
        have h1 : ((count_errors ans : Int)).toNat = 1 := by omega
        rw [h1]
        cases am_sub <;> rfl
    · have hof' : onlyfirst = false := by
        cases onlyfirst
        · rfl
        · exact absurd rfl hof
      subst hof'
      have hbudget : (if (false = true ∧ 1 < (count_errors ans : Int)) then (1 : Int)
          else (count_errors ans : Int)) = (count_errors ans : Int) :=
        if_neg (fun hc => absurd hc.1 (by decide))
      rw [hbudget, hloop (count_errors ans : Int) (by omega) (by omega)]
      have htake : (error_messages_stripped ans).take ((count_errors ans : Int)).toNat
          = error_messages_stripped ans := by
        have h2 : ((count_errors ans : Int)).toNat = (error_messages_stripped ans).length := by
          rw [error_messages_stripped_length]
          omega
        rw [h2]
        exact List.take_length _
      rw [htake]
      cases am_sub <;> rfl

/-- Witness for C8: over three error replies, `onlyfirst` returns exactly the
first prefix-stripped message, otherwise all three joined with "; " (or
raised when called as a subroutine); with no errors the call returns
nothing. -/
theorem check_for_errors_witness :
    xpa_check ans3 true false = .ok (some (("one").data)) ∧
    xpa_check ans3 false false = .ok (some (("one; two; three").data)) ∧
    xpa_check ans3 false true = .error (("one; two; three").data) ∧
    xpa_check obj_empty true true = .ok none := by
  refine ⟨?_, ?_, ?_, ?_⟩
  · exact ((check_for_errors ans3 rfl true false).2 (by decide)).trans rfl
  · exact ((check_for_errors ans3 rfl false false).2 (by decide)).trans rfl
  · exact ((check_for_errors ans3 rfl false true).2 (by decide)).trans rfl
  · exact (check_for_errors obj_empty rfl true true).1 rfl

end YorXPA
